import Mathlib

/-!
Verification of the Pleader AI backend orchestration layer (`backend/server.py`).

The request handlers are embedded shallowly: MongoDB collections become Lean
lists, external collaborators (the Gemini generation service, the RAG engine,
bcrypt, the export formatters) become explicit parameters carrying their
outcome, and `datetime` timestamps become natural numbers.  Each handler is a
pure function from the store and the request to the new store and the
HTTP-level outcome; where a claim is about the order of effects, the handler
additionally returns a trace of collaborator events.
-/

namespace Pleader

/-- Python string slicing `s[:n]`: the first `n` characters of `s`. -/
def strTake (s : String) (n : Nat) : String := String.mk (s.data.take n)

/-- Python `str.strip()`: drop leading and trailing whitespace. -/
def pyStrip (s : String) : String :=
  String.mk (((s.data.dropWhile Char.isWhitespace).reverse.dropWhile Char.isWhitespace).reverse)

/-- `sanitize_string` from `server.py`: drop NUL bytes, truncate to
`maxLength` characters, drop angle brackets, then strip whitespace. -/
def sanitize_string (text : String) (maxLength : Nat) : String :=
  let noNull := text.data.filter (fun c => c != Char.ofNat 0)
  let bounded := noNull.take maxLength
  let noAngle := bounded.filter (fun c => c != Char.ofNat 60 && c != Char.ofNat 62)
  pyStrip (String.mk noAngle)

/-- A chat message (`Message` model): sender tag, content, timestamp,
attachment references. -/
structure Message where
  sender : String
  content : String
  timestamp : Nat
  attachments : List String
deriving DecidableEq, Repr

/-- A chat record (`Chat` model): id, owning user, title, ordered message
sequence, timestamps. -/
structure Chat where
  id : String
  user_id : String
  title : String
  messages : List Message
  created_at : Nat
  updated_at : Nat
deriving DecidableEq, Repr

/-- The ownership-scoped lookup filter `{"id": chat_id, "user_id": current_user.id}`
used by `send_message` (load), `get_chat`, `delete_chat` and `export_chat`. -/
def chatOwnerFilter (cid uid : String) (c : Chat) : Bool :=
  c.id == cid && c.user_id == uid

/-- The id-only filter `{"id": chat_id}` used by the `update_one` that persists
the message sequence in `send_message`. -/
def chatIdFilter (cid : String) (c : Chat) : Bool :=
  c.id == cid

/-- Mongo `update_one`: rewrite the first element matching `p` with `f`. -/
def updateFirst {α : Type} (p : α → Bool) (f : α → α) : List α → List α
  | [] => []
  | x :: xs => if p x then f x :: xs else x :: updateFirst p f xs

/-- Mongo `delete_one`: remove the first element matching `p`. -/
def eraseFirst {α : Type} (p : α → Bool) : List α → List α
  | [] => []
  | x :: xs => if p x then xs else x :: eraseFirst p xs

/-- Outcome of the `/chat/send` handler. -/
inductive SendOut where
  | ok (chat_id : String) (message : Message)
  | notFound
  | genFailure (detail : String)
deriving DecidableEq, Repr

/-- New-chat title in `send_message`:
`user_message[:50] + ("..." if len(user_message) > 50 else "")`. -/
def sendTitle (msg : String) : String :=
  strTake msg 50 ++ (if msg.length > 50 then "..." else "")

/-- Shared tail of `send_message` once the chat is resolved (created or
loaded): append the user message to the in-memory copy, call the generation
service, and only on success append the assistant message and persist the full
message sequence with an id-only `update_one`.  On failure the store is left
exactly as it was when the chat was resolved. -/
def send_message_resolved (chats : List Chat) (cid : String) (chat : Chat)
    (userMessage : String) (now : Nat) (gen : Except String String) :
    List Chat × SendOut :=
  let userMsg : Message :=
    { sender := "user", content := userMessage, timestamp := now, attachments := [] }
  let msgs1 := chat.messages ++ [userMsg]
  match gen with
  | .error e => (chats, .genFailure ("Failed to generate response: " ++ e))
  | .ok text =>
      let aiMsg : Message :=
        { sender := "ai", content := text, timestamp := now, attachments := [] }
      let msgs2 := msgs1 ++ [aiMsg]
      let chats2 := updateFirst (chatIdFilter cid)
        (fun c => { c with messages := msgs2, updated_at := now, title := chat.title }) chats
      (chats2, .ok cid aiMsg)

/-- The `/chat/send` handler (`send_message` in `server.py`).  `chatId?` is the
optional `chat_id` of the request, `userMessage` the validated message,
`newChatId` the uuid minted for a fresh chat, `now` the wall clock, and `gen`
the outcome of the generation collaborator. -/
def send_message (chats : List Chat) (caller : String) (chatId? : Option String)
    (userMessage : String) (newChatId : String) (now : Nat)
    (gen : Except String String) : List Chat × SendOut :=
  match chatId? with
  | none =>
      let chat : Chat :=
        { id := newChatId, user_id := caller, title := sendTitle userMessage,
          messages := [], created_at := now, updated_at := now }
      send_message_resolved (chats ++ [chat]) chat.id chat userMessage now gen
  | some cid =>
      match chats.find? (chatOwnerFilter cid caller) with
      | none => (chats, .notFound)
      | some chat => send_message_resolved chats cid chat userMessage now gen

/-- The `/chat/{chat_id}` GET handler (`get_chat`): ownership-scoped
`find_one`, `404 Chat not found` when nothing matches. -/
def get_chat (chats : List Chat) (cid caller : String) :
    Except (Nat × String) Chat :=
  match chats.find? (chatOwnerFilter cid caller) with
  | none => .error (404, "Chat not found")
  | some c => .ok c

/-- The `/chat/{chat_id}` DELETE handler (`delete_chat`): ownership-scoped
`delete_one`; `deleted_count == 0` becomes `404 Chat not found`. -/
def delete_chat (chats : List Chat) (cid caller : String) :
    List Chat × Except (Nat × String) String :=
  match chats.find? (chatOwnerFilter cid caller) with
  | none => (chats, .error (404, "Chat not found"))
  | some _ =>
      (eraseFirst (chatOwnerFilter cid caller) chats, .ok "Chat deleted successfully")

/-- A value of the free-form `preferences` mapping (JSON primitives). -/
inductive PrefVal where
  | s (v : String)
  | b (v : Bool)
  | n (v : Int)
deriving DecidableEq, Repr

/-- A stored user record.  `signup` inserts `User.model_dump()` with a
`password_hash` key added (`some hash`); `create_session` inserts
`User.model_dump()` as is, so OAuth-provisioned users carry no
`password_hash` field at all (`none`). -/
structure StoredUser where
  id : String
  name : String
  email : String
  avatar_url : Option String
  auth_provider : String
  password_hash : Option String
  preferences : List (String × PrefVal)
  created_at : Nat
  last_active : Nat
deriving DecidableEq, Repr

/-- The JWT payload `{user_id, exp}`; signing is the collaborator's job. -/
structure TokenPayload where
  user_id : String
  exp : Nat
deriving DecidableEq, Repr

/-- `JWT_EXPIRATION = timedelta(days=7)`, in seconds. -/
def JWT_EXPIRATION : Nat := 7 * 24 * 60 * 60

/-- Successful response body of `/auth/login`. -/
structure LoginOk where
  message : String
  token : TokenPayload
  user_id : String
  user_name : String
  user_email : String
  user_avatar : Option String
deriving DecidableEq, Repr

/-- The `/auth/login` handler (`login`): find the user by email and check the
password with the bcrypt collaborator `checkpw`; an unknown email and a
rejected password both answer `401 Invalid email or password`.  The stored
hash is read with the subscript `user["password_hash"]`: for an
OAuth-provisioned record the key is absent, the lookup raises `KeyError`,
and the framework surfaces its generic 500 response. -/
def login (checkpw : String → String → Bool) (users : List StoredUser)
    (email password : String) (now : Nat) : Except (Nat × String) LoginOk :=
  match users.find? (fun u => u.email == email) with
  | none => .error (401, "Invalid email or password")
  | some u =>
      match u.password_hash with
      | none => .error (500, "Internal Server Error")
      | some stored_hash =>
          if checkpw password stored_hash then
            .ok { message := "Login successful",
                  token := { user_id := u.id, exp := now + JWT_EXPIRATION },
                  user_id := u.id, user_name := u.name, user_email := u.email,
                  user_avatar := u.avatar_url }
          else
            .error (401, "Invalid email or password")

/-- A stored document record as inserted by `analyze_document`. -/
structure StoredDoc where
  id : String
  user_id : String
  filename : String
  document_type : String
  extracted_text : String
  analysis : String
  created_at : Nat
deriving DecidableEq, Repr

/-- The ownership-scoped lookup filter `{"id": document_id, "user_id": current_user.id}`
used by `delete_document` and `export_document_analysis`. -/
def docOwnerFilter (did uid : String) (d : StoredDoc) : Bool :=
  d.id == did && d.user_id == uid

/-- The `/documents/{document_id}` DELETE handler (`delete_document`):
ownership-scoped `delete_one`; `deleted_count == 0` becomes `404`. -/
def delete_document (docs : List StoredDoc) (did caller : String) :
    List StoredDoc × Except (Nat × String) String :=
  match docs.find? (docOwnerFilter did caller) with
  | none => (docs, .error (404, "Document not found"))
  | some _ =>
      (eraseFirst (docOwnerFilter did caller) docs, .ok "Document deleted successfully")

/-- Suffix test on strings, by their character lists. -/
def strEndsWith (s suffix : String) : Bool :=
  suffix.data.isSuffixOf s.data

/-- Modelled from the spec: `validate_file_type` lives in `document_utils`,
which is not among the sources; the spec (§4.4) prescribes a file-type
allow-list checked by extension, and the endpoint's own error message names
the allowed types PDF, DOCX, TXT, JPG, PNG. -/
def validate_file_type (filename : String) : Bool :=
  ["pdf", "docx", "txt", "jpg", "png"].any (fun ext => strEndsWith filename ("." ++ ext))

/-- `MAX_UPLOAD = 10 * 1024 * 1024` bytes, the cap checked in `analyze_document`. -/
def MAX_UPLOAD : Nat := 10 * 1024 * 1024

/-- Collaborator events of the `/documents/analyze` handler, in the order they
happen: reading the request body, calling text extraction, calling generation,
and calling `add_documents` on the RAG pipeline (with the call's outcome). -/
inductive AnEv where
  | readBody
  | extractCall
  | genCall
  | ragAddCall (ok : Bool)
deriving DecidableEq, Repr

/-- Successful response body of `/documents/analyze`. -/
structure AnalyzeOut where
  document_id : String
  filename : String
  analysis : String
  extracted_text_length : Nat
deriving DecidableEq, Repr

/-- The `/documents/analyze` handler (`analyze_document`).  The extension
check runs first; then `await file.read()` pulls the whole body (`bodyLen`
bytes) into memory and only afterwards is the 10MB cap checked; extraction,
generation and the best-effort RAG indexing follow.  An `HTTPException`
raised inside the `try` block (the insufficient-text 400) is caught by the
generic `except` and resurfaces as a 500.  `ragOk` is the outcome of the
indexing collaborator: its failure is logged and swallowed. -/
def analyze_document (filename document_type caller : String) (bodyLen : Nat)
    (extract : Except String String) (gen : Except String String) (ragOk : Bool)
    (newDocId : String) (now : Nat) (docs : List StoredDoc) :
    List AnEv × List StoredDoc × Except (Nat × String) AnalyzeOut :=
  if validate_file_type filename = false then
    ([], docs, .error (400, "Unsupported file type. Supported: PDF, DOCX, TXT, JPG, PNG"))
  else if MAX_UPLOAD < bodyLen then
    ([.readBody], docs, .error (400, "File too large. Maximum size: 10MB"))
  else
    match extract with
    | .error e =>
        ([.readBody, .extractCall], docs,
         .error (500, "Failed to analyze document: " ++ e))
    | .ok text =>
        if (pyStrip text).length < 10 then
          ([.readBody, .extractCall], docs,
           .error (500, "Failed to analyze document: 400: Could not extract sufficient text from document"))
        else
          match gen with
          | .error e =>
              ([.readBody, .extractCall, .genCall], docs,
               .error (500, "Failed to analyze document: " ++ e))
          | .ok analysis =>
              let doc : StoredDoc :=
                { id := newDocId, user_id := caller, filename := filename,
                  document_type := document_type,
                  extracted_text := strTake text 10000,
                  analysis := analysis, created_at := now }
              ([.readBody, .extractCall, .genCall, .ragAddCall ragOk],
               docs ++ [doc],
               .ok { document_id := newDocId, filename := filename,
                     analysis := analysis, extracted_text_length := text.length })

/-- Gateway event of the `/rag/query` handler: the single forwarded call. -/
inductive RagEv where
  | gatewayQuery (query : String) (top_k : Int) (use_rerank : Bool)
deriving DecidableEq, Repr

/-- Validation of `RAGQueryRequest`: the pydantic field bounds
`top_k ∈ [1, 20]` and the sanitizing nonempty-query validator, both run
before the handler body. -/
def rag_validate (query : String) (top_k : Int) :
    Except (Nat × String) (String × Int) :=
  if top_k < 1 ∨ 20 < top_k then
    .error (422, "validation error")
  else
    let q := sanitize_string query 2000
    if q.length < 1 then .error (422, "validation error")
    else .ok (q, top_k)

/-- The `/rag/query` handler (`rag_query`): after request validation the
query is forwarded verbatim to the Retrieval Gateway; a gateway failure
surfaces as a 500. -/
def rag_query (query : String) (top_k : Int) (use_rerank : Bool)
    (gw : Except String (List String)) :
    List RagEv × Except (Nat × String) (String × List String) :=
  match rag_validate query top_k with
  | .error e => ([], .error e)
  | .ok (q, k) =>
      match gw with
      | .ok results => ([.gatewayQuery q k use_rerank], .ok (q, results))
      | .error e =>
          ([.gatewayQuery q k use_rerank],
           .error (500, "Failed to process query: " ++ e))

/-- Store-lookup events of the export handlers. -/
inductive ExEv where
  | chatLookup (cid uid : String)
  | docLookup (did uid : String)
deriving DecidableEq, Repr

/-- Media type per export format, as chosen by both export handlers. -/
def exportMediaType (fmt : String) : String :=
  if fmt = "pdf" then "application/pdf"
  else if fmt = "docx" then
    "application/vnd.openxmlformats-officedocument.wordprocessingml.document"
  else "text/plain"

/-- The `/chat/{chat_id}/export/{format}` handler (`export_chat`): the format
allow-list is checked first, before the single ownership-scoped store lookup;
`fmtChat` is the formatter collaborator mapping format and record to bytes. -/
def export_chat (fmtChat : String → Chat → List Nat) (chats : List Chat)
    (caller cid fmt : String) :
    List ExEv × Except (Nat × String) (List Nat × String × String) :=
  if fmt ∉ (["pdf", "docx", "txt"] : List String) then
    ([], .error (400, "Invalid format. Use: pdf, docx, or txt"))
  else
    match chats.find? (chatOwnerFilter cid caller) with
    | none => ([.chatLookup cid caller], .error (404, "Chat not found"))
    | some chat =>
        ([.chatLookup cid caller],
         .ok (fmtChat fmt chat, exportMediaType fmt,
              "chat_" ++ strTake cid 8 ++ "." ++ fmt))

/-- The `/documents/{document_id}/export/{format}` handler
(`export_document_analysis`), same shape as `export_chat`. -/
def export_document_analysis (fmtDoc : String → StoredDoc → List Nat)
    (docs : List StoredDoc) (caller did fmt : String) :
    List ExEv × Except (Nat × String) (List Nat × String × String) :=
  if fmt ∉ (["pdf", "docx", "txt"] : List String) then
    ([], .error (400, "Invalid format. Use: pdf, docx, or txt"))
  else
    match docs.find? (docOwnerFilter did caller) with
    | none => ([.docLookup did caller], .error (404, "Document not found"))
    | some doc =>
        ([.docLookup did caller],
         .ok (fmtDoc fmt doc, exportMediaType fmt,
              "analysis_" ++ strTake did 8 ++ "." ++ fmt))

/-- The `/user/preferences` PUT handler (`update_preferences`): a single
`update_one` that `$set`s the whole `preferences` field of the caller's user
record, with no validation of the supplied mapping. -/
def update_preferences (users : List StoredUser) (caller : String)
    (prefs : List (String × PrefVal)) : List StoredUser × String :=
  (updateFirst (fun u => u.id == caller) (fun u => { u with preferences := prefs }) users,
   "Preferences updated successfully")

/-! ### Helper lemmas -/

/-- `updateFirst` rewrites at most one element: any member of the input list
survives either untouched or with `f` applied. -/
lemma mem_updateFirst {α : Type} (p : α → Bool) (f : α → α) (x : α) (l : List α)
    (hx : x ∈ l) : x ∈ updateFirst p f l ∨ f x ∈ updateFirst p f l := by
  induction l with
  | nil => exact absurd hx (List.not_mem_nil x)
  | cons a as ih =>
      rcases List.mem_cons.mp hx with rfl | hmem
      · by_cases hpa : p x = true
        · right
          simp [updateFirst, hpa]
        · left
          simp [updateFirst, hpa]
      · by_cases hpa : p a = true
        · left
          simp [updateFirst, hpa, hmem]
        · rcases ih hmem with h | h
          · left
            simp [updateFirst, hpa, h]
          · right
            simp [updateFirst, hpa, h]

/-- `updateFirst` on a list whose first match is the element `x` sitting after
a match-free prefix rewrites exactly `x`. -/
lemma updateFirst_append {α : Type} (p : α → Bool) (f : α → α) (l₁ l₂ : List α)
    (x : α) (h1 : ∀ y ∈ l₁, p y = false) (hx : p x = true) :
    updateFirst p f (l₁ ++ x :: l₂) = l₁ ++ f x :: l₂ := by
  induction l₁ with
  | nil => simp [updateFirst, hx]
  | cons a as ih =>
      have ha : p a = false := h1 a (List.mem_cons_self a as)
      simp [updateFirst, ha, ih (fun y hy => h1 y (List.mem_cons_of_mem a hy))]

/-- Taking at least the whole string is the identity. -/
lemma strTake_of_length_le (s : String) (n : Nat) (h : s.length ≤ n) :
    strTake s n = s := by
  cases s with
  | mk data =>
      simp only [String.length] at h
      simp only [strTake]
      rw [List.take_of_length_le h]

/-- Taking at most the whole string yields exactly `n` characters. -/
lemma length_strTake_of_le (s : String) (n : Nat) (h : n ≤ s.length) :
    (strTake s n).length = n := by
  cases s with
  | mk data =>
      simp only [String.length] at h
      simp only [strTake, String.length, List.length_take]
      omega

/-- Appending the empty string is the identity. -/
lemma str_append_empty (s : String) : s ++ "" = s := by
  cases s with
  | mk data =>
      show String.mk (data ++ []) = String.mk data
      rw [List.append_nil]

/-- Package of `mem_updateFirst`: a member satisfying `P` both before and
after `f` yields a member of the updated list satisfying `P`. -/
lemma exists_mem_updateFirst {α : Type} (P : α → Prop) (p : α → Bool)
    (f : α → α) (x : α) (l : List α) (hx : x ∈ l) (hPx : P x) (hPfx : P (f x)) :
    ∃ y, y ∈ updateFirst p f l ∧ P y := by
  rcases mem_updateFirst p f x l hx with h | h
  · exact ⟨x, h, hPx⟩
  · exact ⟨f x, h, hPfx⟩

/-! ### Claims -/

/-- Concrete existing chat used to refute C1: owned by `"A"`, empty message
sequence. -/
def c1Chat : Chat :=
  { id := "c1", user_id := "A", title := "T", messages := [], created_at := 0,
    updated_at := 0 }

/-- C1, counterexample: a send on the existing chat `c1Chat` whose generation
call fails leaves the stored chat exactly as before — its stored message
sequence is still empty, so the user's message `"hello"` is NOT persisted,
refuting the claim that it remains in the chat's stored message sequence. -/
theorem c1_counterexample :
    send_message [c1Chat] "A" (some "c1") "hello" "n" 1 (.error "boom")
      = ([c1Chat], .genFailure "Failed to generate response: boom") ∧
    c1Chat.messages = [] :=
  ⟨rfl, rfl⟩

/-- C1 (amended): for every send-message request on an existing chat where
the generation call fails, the stored chat collection is left completely
unchanged — the user's message, appended only to the in-memory copy, is not
persisted — and the request returns a failure. -/
theorem send_existing_gen_failure_store_unchanged (chats : List Chat)
    (caller cid msg nid : String) (now : Nat) (e : String) (chat : Chat)
    (hfind : chats.find? (chatOwnerFilter cid caller) = some chat) :
    send_message chats caller (some cid) msg nid now (.error e)
      = (chats, .genFailure ("Failed to generate response: " ++ e)) := by
  simp [send_message, hfind, send_message_resolved]

/-- C1 witness: the amended theorem applied to the concrete one-chat store. -/
theorem send_existing_gen_failure_store_unchanged_witness :
    send_message [c1Chat] "A" (some "c1") "hi" "n" 2 (.error "x")
      = ([c1Chat], .genFailure "Failed to generate response: x") :=
  send_existing_gen_failure_store_unchanged [c1Chat] "A" "c1" "hi" "n" 2 "x"
    c1Chat (by decide)

/-- Concrete OAuth-provisioned user record: `create_session` inserts
`User.model_dump()` unchanged, so the stored record has no `password_hash`
field. -/
def oauthUser : StoredUser :=
  { id := "u9", name := "Oya", email := "oauth@x.co", avatar_url := none,
    auth_provider := "google", password_hash := none,
    preferences := [], created_at := 0, last_active := 0 }

/-- C2: the claimed uniformity fails on the code for OAuth-provisioned
users.  A login attempt with `oauthUser`'s email reads the absent
`password_hash` key, raises `KeyError`, and surfaces as the framework's 500
— while the same attempt with an email no stored user carries yields the 401
invalid-credentials error.  The two outcomes differ, so a failed login does
distinguish an OAuth-registered email from an unknown one, leaking account
existence. -/
theorem login_oauth_user_500_leak :
    login (fun _ _ => false) [oauthUser] "oauth@x.co" "anything" 0
      = .error (500, "Internal Server Error") ∧
    login (fun _ _ => false) [oauthUser] "unknown@x.co" "anything" 0
      = .error (401, "Invalid email or password") ∧
    ((500, "Internal Server Error") : Nat × String)
      ≠ ((401, "Invalid email or password") : Nat × String) :=
  ⟨rfl, rfl, by decide⟩

/-- C9: a send-message request without a chat id whose generation call fails
persists a brand-new chat — owned by the caller, with an empty message list
and the title derived from the message — while the request itself fails. -/
theorem send_no_id_gen_failure_orphan_chat (chats : List Chat)
    (caller msg nid : String) (now : Nat) (e : String) :
    send_message chats caller none msg nid now (.error e)
      = (chats ++ [{ id := nid, user_id := caller, title := sendTitle msg,
                     messages := [], created_at := now, updated_at := now }],
         .genFailure ("Failed to generate response: " ++ e)) :=
  rfl

/-- C3, counterexample: an allowed `.pdf` upload one byte over the 10MB cap
is rejected with the size error only AFTER the event trace records the full
body read — the size cap is not enforced before reading the full body,
refuting the claim that both checks precede the read. -/
theorem c3_counterexample :
    analyze_document "brief.pdf" "legal_document" "A" (10 * 1024 * 1024 + 1)
        (.ok "") (.ok "") true "d1" 0 []
      = ([.readBody], [], .error (400, "File too large. Maximum size: 10MB")) :=
  rfl

/-- C3 (amended): the file-type allow-list check runs before the body is
read, and a disallowed extension is rejected without reading the body or
invoking the text-extraction collaborator; the 10MB size cap, however, is
enforced only after the full body has been read into memory. -/
theorem analyze_validation_order (filename dtype caller : String)
    (bodyLen : Nat) (extract gen : Except String String) (ragOk : Bool)
    (did : String) (now : Nat) (docs : List StoredDoc) :
    (validate_file_type filename = false →
       analyze_document filename dtype caller bodyLen extract gen ragOk did now docs
         = ([], docs,
            .error (400, "Unsupported file type. Supported: PDF, DOCX, TXT, JPG, PNG"))) ∧
    (validate_file_type filename = true → MAX_UPLOAD < bodyLen →
       analyze_document filename dtype caller bodyLen extract gen ragOk did now docs
         = ([.readBody], docs, .error (400, "File too large. Maximum size: 10MB"))) := by
  constructor
  · intro hbad
    simp [analyze_document, hbad]
  · intro hok hsz
    simp [analyze_document, hok, hsz]

/-- C3 witness: a `.exe` upload is rejected with no events at all, and an
oversized `.pdf` upload is rejected with exactly one body-read event. -/
theorem analyze_validation_order_witness :
    (analyze_document "evil.exe" "legal_document" "A" 5 (.ok "") (.ok "")
        true "d1" 0 []
      = ([], [],
         .error (400, "Unsupported file type. Supported: PDF, DOCX, TXT, JPG, PNG"))) ∧
    (analyze_document "brief.pdf" "legal_document" "A" (10 * 1024 * 1024 + 1)
        (.ok "") (.ok "") true "d1" 0 []
      = ([.readBody], [], .error (400, "File too large. Maximum size: 10MB"))) :=
  ⟨(analyze_validation_order "evil.exe" "legal_document" "A" 5 (.ok "") (.ok "")
      true "d1" 0 []).1 (by decide),
   (analyze_validation_order "brief.pdf" "legal_document" "A"
      (10 * 1024 * 1024 + 1) (.ok "") (.ok "") true "d1" 0 []).2 (by decide)
      (by decide)⟩

/-- C4: an export request — for a chat or for a document analysis — whose
format tag is outside pdf/docx/txt fails with the bad-format error and an
empty store-lookup trace, for every store and every id, existing or not; in
particular a nonexistent id with a bad format yields the format error, never
NotFound. -/
theorem export_bad_format_before_lookup (fmtChat : String → Chat → List Nat)
    (fmtDoc : String → StoredDoc → List Nat) (chats : List Chat)
    (docs : List StoredDoc) (caller cid did fmt : String)
    (hfmt : fmt ∉ (["pdf", "docx", "txt"] : List String)) :
    export_chat fmtChat chats caller cid fmt
      = ([], .error (400, "Invalid format. Use: pdf, docx, or txt")) ∧
    export_document_analysis fmtDoc docs caller did fmt
      = ([], .error (400, "Invalid format. Use: pdf, docx, or txt")) := by
  constructor
  · simp [export_chat, hfmt]
  · simp [export_document_analysis, hfmt]

/-- C4 witness: format `"xml"` with ids that exist in no store. -/
theorem export_bad_format_before_lookup_witness :
    export_chat (fun _ _ => []) [] "A" "no-such-chat" "xml"
      = ([], .error (400, "Invalid format. Use: pdf, docx, or txt")) ∧
    export_document_analysis (fun _ _ => []) [] "A" "no-such-doc" "xml"
      = ([], .error (400, "Invalid format. Use: pdf, docx, or txt")) :=
  export_bad_format_before_lookup (fun _ _ => []) (fun _ _ => []) [] [] "A"
    "no-such-chat" "no-such-doc" "xml" (by decide)

/-- C5: a rag-query whose `top_k` lies outside `[1, 20]` fails validation
with an empty gateway trace — the Retrieval Gateway is never invoked — while
a request with `top_k` inside `[1, 20]` (and a query that survives
sanitization) is forwarded to the gateway with exactly the given `top_k`. -/
theorem rag_query_top_k_validation (query : String) (top_k : Int) (rr : Bool)
    (gw : Except String (List String)) :
    ((top_k < 1 ∨ 20 < top_k) →
       rag_query query top_k rr gw = ([], .error (422, "validation error"))) ∧
    (1 ≤ top_k → top_k ≤ 20 → 1 ≤ (sanitize_string query 2000).length →
       (rag_query query top_k rr gw).1
         = [.gatewayQuery (sanitize_string query 2000) top_k rr]) := by
  constructor
  · intro hout
    simp [rag_query, rag_validate, hout]
  · intro h1 h2 hq
    have hin : ¬(top_k < 1 ∨ 20 < top_k) := by omega
    have hlen : ¬((sanitize_string query 2000).length < 1) := by omega
    cases gw with
    | ok results => simp [rag_query, rag_validate, hin, hlen]
    | error e => simp [rag_query, rag_validate, hin, hlen]

/-- C5 witness: `top_k = 0` is rejected before the gateway; `top_k = 5` is
forwarded with `top_k = 5`. -/
theorem rag_query_top_k_validation_witness :
    rag_query "q" 0 true (.ok []) = ([], .error (422, "validation error")) ∧
    (rag_query "q" 5 true (.ok [])).1 = [.gatewayQuery "q" 5 true] :=
  ⟨(rag_query_top_k_validation "q" 0 true (.ok [])).1 (by decide),
   (rag_query_top_k_validation "q" 5 true (.ok [])).2 (by decide) (by decide)
     (by decide)⟩

/-- Concrete chat owned by `"B"`, used to refute C6. -/
def chatOwnedByB : Chat :=
  { id := "c1", user_id := "B", title := "chat B", messages := [],
    created_at := 0, updated_at := 0 }

/-- Concrete chat owned by `"A"`, stored under the same id as `chatOwnedByB`. -/
def chatOwnedByA : Chat :=
  { id := "c1", user_id := "A", title := "chat A", messages := [],
    created_at := 0, updated_at := 0 }

/-- C6, counterexample: the `update_one` that persists messages in
`send_message` filters by chat id alone, not by the caller's identity.  In a
store holding user B's chat and user A's chat under the same id, caller A's
successful send overwrites B's record — A's messages land in a chat whose
`user_id` is `"B"` — so not every chat write filters by both resource id and
caller identity. -/
theorem c6_counterexample :
    (send_message [chatOwnedByB, chatOwnedByA] "A" (some "c1") "hi" "n" 1
        (.ok "ans")).1
      = [{ id := "c1", user_id := "B", title := "chat A",
           messages :=
             [{ sender := "user", content := "hi", timestamp := 1, attachments := [] },
              { sender := "ai", content := "ans", timestamp := 1, attachments := [] }],
           created_at := 0, updated_at := 1 },
         chatOwnedByA] ∧
    ("B" : String) ≠ "A" :=
  ⟨rfl, by decide⟩

/-- C6 (amended): every fetch or delete of a chat or document is an
ownership-scoped lookup — when no stored chat (resp. document) carries both
the requested id and the caller's identity, the outcome is the NotFound
error, identical for a resource owned by another user and for a nonexistent
id; the ownership filter checks both id and owner.  The id-only filter used
by the message-persist write in `send_message`, by contrast, ignores the
owner. -/
theorem ownership_scoped_lookups (chats : List Chat) (docs : List StoredDoc)
    (cid did caller : String)
    (hc : ∀ c ∈ chats, c.id = cid → c.user_id ≠ caller)
    (hd : ∀ d ∈ docs, d.id = did → d.user_id ≠ caller) :
    get_chat chats cid caller = .error (404, "Chat not found") ∧
    delete_chat chats cid caller = (chats, .error (404, "Chat not found")) ∧
    delete_document docs did caller = (docs, .error (404, "Document not found")) ∧
    (∀ (c : Chat) (i u : String),
       chatOwnerFilter i u c = true ↔ (c.id = i ∧ c.user_id = u)) ∧
    (∀ (d : StoredDoc) (i u : String),
       docOwnerFilter i u d = true ↔ (d.id = i ∧ d.user_id = u)) ∧
    (∀ (c : Chat) (i : String), chatIdFilter i c = true ↔ c.id = i) := by
  have hcnone : chats.find? (chatOwnerFilter cid caller) = none := by
    apply List.find?_eq_none.mpr
    intro c hmem
    simp only [chatOwnerFilter, Bool.and_eq_true, beq_iff_eq, not_and]
    intro hid
    exact fun huser => hc c hmem hid huser
  have hdnone : docs.find? (docOwnerFilter did caller) = none := by
    apply List.find?_eq_none.mpr
    intro d hmem
    simp only [docOwnerFilter, Bool.and_eq_true, beq_iff_eq, not_and]
    intro hid
    exact fun huser => hd d hmem hid huser
  refine ⟨?_, ?_, ?_, ?_, ?_, ?_⟩
  · simp [get_chat, hcnone]
  · simp [delete_chat, hcnone]
  · simp [delete_document, hdnone]
  · intro c i u
    simp [chatOwnerFilter]
  · intro d i u
    simp [docOwnerFilter]
  · intro c i
    simp [chatIdFilter]

/-- C6 witness: caller `"B"` fetching or deleting the chat owned by `"A"`
gets NotFound, the same outcome as for a store with no such id at all. -/
theorem ownership_scoped_lookups_witness :
    get_chat [chatOwnedByA] "c1" "B" = .error (404, "Chat not found") ∧
    delete_chat [chatOwnedByA] "c1" "B"
      = ([chatOwnedByA], .error (404, "Chat not found")) ∧
    delete_document [] "d1" "B" = ([], .error (404, "Document not found")) :=
  ⟨(ownership_scoped_lookups [chatOwnedByA] [] "c1" "d1" "B" (by decide)
      (by decide)).1,
   (ownership_scoped_lookups [chatOwnedByA] [] "c1" "d1" "B" (by decide)
      (by decide)).2.1,
   (ownership_scoped_lookups [chatOwnedByA] [] "c1" "d1" "B" (by decide)
      (by decide)).2.2.1⟩

/-- C7: once an analyze request reaches the indexing step — allowed type,
body within the cap, extraction and generation both successful — the outcome
is independent of the RAG indexing collaborator: for either value of `ragOk`
the document record is persisted and the analysis returned, with the trace
recording the indexing attempt and its outcome. -/
theorem analyze_indexing_failure_swallowed (filename dtype caller : String)
    (bodyLen : Nat) (text analysis : String) (ragOk : Bool) (did : String)
    (now : Nat) (docs : List StoredDoc)
    (hft : validate_file_type filename = true)
    (hsz : bodyLen ≤ MAX_UPLOAD)
    (hsuf : 10 ≤ (pyStrip text).length) :
    analyze_document filename dtype caller bodyLen (.ok text) (.ok analysis)
        ragOk did now docs
      = ([.readBody, .extractCall, .genCall, .ragAddCall ragOk],
         docs ++ [{ id := did, user_id := caller, filename := filename,
                    document_type := dtype,
                    extracted_text := strTake text 10000,
                    analysis := analysis, created_at := now }],
         .ok { document_id := did, filename := filename, analysis := analysis,
               extracted_text_length := text.length }) := by
  have h1 : ¬ (MAX_UPLOAD < bodyLen) := by omega
  have h2 : ¬ ((pyStrip text).length < 10) := by omega
  simp [analyze_document, hft, h1, h2]

/-- C7 witness: a concrete analyze request whose indexing fails
(`ragOk = false`) still persists the document and returns the analysis. -/
theorem analyze_indexing_failure_swallowed_witness :
    analyze_document "brief.pdf" "legal_document" "A" 4 (.ok "abcdefghijkl")
        (.ok "AN") false "d1" 7 []
      = ([.readBody, .extractCall, .genCall, .ragAddCall false],
         [{ id := "d1", user_id := "A", filename := "brief.pdf",
            document_type := "legal_document",
            extracted_text := strTake "abcdefghijkl" 10000,
            analysis := "AN", created_at := 7 }],
         .ok { document_id := "d1", filename := "brief.pdf", analysis := "AN",
               extracted_text_length := "abcdefghijkl".length }) :=
  analyze_indexing_failure_swallowed "brief.pdf" "legal_document" "A" 4
    "abcdefghijkl" "AN" false "d1" 7 [] (by decide) (by decide) (by decide)

/-- C8: a send-message request without a chat id leaves in the store a chat
with the fresh id, owned by the caller, whose title is the message truncated
to 50 characters — unchanged when the message has at most 50 characters, and
the 50-character prefix followed by the ellipsis marker when it is longer. -/
theorem send_new_chat_title (chats : List Chat) (caller msg nid : String)
    (now : Nat) (gen : Except String String) :
    ∃ c, c ∈ (send_message chats caller none msg nid now gen).1 ∧
      c.id = nid ∧ c.user_id = caller ∧ c.title = sendTitle msg ∧
      (msg.length ≤ 50 → c.title = msg) ∧
      (50 < msg.length →
        c.title = strTake msg 50 ++ "..." ∧ (strTake msg 50).length = 50) := by
  have htle : msg.length ≤ 50 → sendTitle msg = msg := by
    intro h
    have hnot : ¬ (msg.length > 50) := by omega
    simp only [sendTitle, if_neg hnot]
    rw [str_append_empty, strTake_of_length_le msg 50 h]
  have htgt : 50 < msg.length →
      sendTitle msg = strTake msg 50 ++ "..." ∧ (strTake msg 50).length = 50 := by
    intro h
    refine ⟨?_, length_strTake_of_le msg 50 (Nat.le_of_lt h)⟩
    simp only [sendTitle, if_pos h]
  cases gen with
  | error e =>
      refine ⟨{ id := nid, user_id := caller, title := sendTitle msg,
                messages := [], created_at := now, updated_at := now },
              ?_, rfl, rfl, rfl, htle, htgt⟩
      simp [send_message, send_message_resolved]
  | ok text =>
      exact exists_mem_updateFirst _ _ _
        { id := nid, user_id := caller, title := sendTitle msg,
          messages := [], created_at := now, updated_at := now }
        _ (by simp) ⟨rfl, rfl, rfl, htle, htgt⟩ ⟨rfl, rfl, rfl, htle, htgt⟩

/-- C8 witness: the theorem at a short message and at a long one. -/
theorem send_new_chat_title_witness :
    (∃ c, c ∈ (send_message [] "A" none "hello" "n1" 0 (.ok "x")).1 ∧
      c.id = "n1" ∧ c.user_id = "A" ∧ c.title = sendTitle "hello" ∧
      ("hello".length ≤ 50 → c.title = "hello") ∧
      (50 < "hello".length →
        c.title = strTake "hello" 50 ++ "..." ∧ (strTake "hello" 50).length = 50)) :=
  send_new_chat_title [] "A" "hello" "n1" 0 (.ok "x")

/-- C10: updating preferences replaces the caller's `preferences` field
wholesale with exactly the supplied mapping — arbitrary keys and values, no
merging, no validation — and leaves every other field of the caller's record
and every other user record untouched; the endpoint always reports success. -/
theorem update_preferences_wholesale (pre post : List StoredUser)
    (u : StoredUser) (prefs : List (String × PrefVal))
    (hpre : ∀ v ∈ pre, v.id ≠ u.id) :
    update_preferences (pre ++ u :: post) u.id prefs
      = (pre ++ { u with preferences := prefs } :: post,
         "Preferences updated successfully") := by
  have h1 : ∀ y ∈ pre, (fun v : StoredUser => v.id == u.id) y = false := by
    intro y hy
    simpa using beq_eq_false_iff_ne.mpr (hpre y hy)
  have hx : (fun v : StoredUser => v.id == u.id) u = true := by simp
  unfold update_preferences
  rw [updateFirst_append _ _ pre post u h1 hx]

/-- C10 witness: a two-user store where the caller's record swaps to an
unvalidated mapping (odd key, negative value) and the other user's record
survives unchanged. -/
theorem update_preferences_wholesale_witness :
    update_preferences
        [{ id := "u1", name := "Bo", email := "bo@x.co", avatar_url := none,
           auth_provider := "email", password_hash := some "h1",
           preferences := [("theme", PrefVal.s "light")], created_at := 0,
           last_active := 0 },
         { id := "u2", name := "Cy", email := "cy@x.co", avatar_url := none,
           auth_provider := "email", password_hash := some "h2",
           preferences := [("theme", PrefVal.s "light")], created_at := 0,
           last_active := 0 }]
        "u2" [("weird key!!", PrefVal.n (-7))]
      = ([{ id := "u1", name := "Bo", email := "bo@x.co", avatar_url := none,
            auth_provider := "email", password_hash := some "h1",
            preferences := [("theme", PrefVal.s "light")], created_at := 0,
            last_active := 0 },
          { id := "u2", name := "Cy", email := "cy@x.co", avatar_url := none,
            auth_provider := "email", password_hash := some "h2",
            preferences := [("weird key!!", PrefVal.n (-7))], created_at := 0,
            last_active := 0 }],
         "Preferences updated successfully") :=
  update_preferences_wholesale
    [{ id := "u1", name := "Bo", email := "bo@x.co", avatar_url := none,
       auth_provider := "email", password_hash := some "h1",
       preferences := [("theme", PrefVal.s "light")], created_at := 0,
       last_active := 0 }]
    []
    { id := "u2", name := "Cy", email := "cy@x.co", avatar_url := none,
      auth_provider := "email", password_hash := some "h2",
      preferences := [("theme", PrefVal.s "light")], created_at := 0,
      last_active := 0 }
    [("weird key!!", PrefVal.n (-7))] (by decide)

end Pleader
